import Mathlib

/-!
Shallow embedding of the Solidity contract ImmuneSystemTwinFHE
(src/frontend/web/src/App.tsx, lines 881-1122) and proofs of the spec claims.

Addresses, ciphertext handles (euint32), bytes32 digests and 32-byte words are
modelled as Nat.  External FHE capabilities (FHE.asEuint32, fheAdd, toBytes32,
isInitialized, keccak256(abi.encode(..)), FHE.requestDecryption,
FHE.checkSignatures) are parameters collected in a record Ext: the embedding is
stated for every deterministic instantiation of them.  A Solidity revert is an
Except.error: the caller keeps the pre-call state, so an erroring call mutates
nothing.  Each operation returns the list of events it emitted.
-/

namespace ImmuneSystemTwinFHE

/-- Batch struct of the contract: id, totalEncryptedDataPoints, closed. -/
structure Batch where
  id : Nat
  totalEncryptedDataPoints : Nat
  closed : Bool
deriving DecidableEq, Repr

/-- EncryptedImmuneData struct: three euint32 ciphertext handles. -/
structure EncryptedImmuneData where
  antigenAffinity : Nat
  antibodyCount : Nat
  tCellEffectiveness : Nat
deriving DecidableEq, Repr

/-- DecryptionContext struct: batchId, stateHash, processed. -/
structure DecryptionContext where
  batchId : Nat
  stateHash : Nat
  processed : Bool
deriving DecidableEq, Repr

/-- External capabilities consumed by the contract (spec section 6).  All are
deterministic functions of their inputs. -/
structure Ext where
  asEuint32 : Nat → Nat
  fheAdd : Nat → Nat → Nat
  toBytes32 : Nat → Nat
  isInitialized : Nat → Bool
  keccakEncode : List Nat → Nat → Nat
  requestDecryption : List Nat → Nat
  checkSignatures : Nat → List Nat → List Nat → Bool
  selfAddr : Nat

/-- Contract storage.  Solidity mappings are total functions with the mapping
default (zeroed struct, false, 0, empty list) at unwritten keys. -/
structure ContractState where
  owner : Nat
  isProvider : Nat → Bool
  paused : Bool
  cooldownSeconds : Nat
  lastSubmissionTime : Nat → Nat
  lastDecryptionRequestTime : Nat → Nat
  currentBatchId : Nat
  batches : Nat → Batch
  batchEncryptedData : Nat → List EncryptedImmuneData
  decryptionContexts : Nat → DecryptionContext

/-- Events declared by the contract. -/
inductive Event where
  | OwnershipTransferred (previousOwner newOwner : Nat)
  | ProviderAdded (provider : Nat)
  | ProviderRemoved (provider : Nat)
  | ContractPaused (account : Nat)
  | ContractUnpaused (account : Nat)
  | CooldownSecondsSet (oldCooldownSeconds newCooldownSeconds : Nat)
  | BatchOpened (batchId : Nat)
  | BatchClosed (batchId totalEncryptedDataPoints : Nat)
  | DataSubmitted (provider batchId dataCount : Nat)
  | DecryptionRequested (requestId batchId stateHash : Nat)
  | DecryptionCompleted (requestId batchId : Nat) (results : List Nat)
deriving DecidableEq, Repr

/-- Errors declared by the contract, with the names used in the source. -/
inductive Err where
  | NotOwner
  | NotProvider
  | Paused
  | CooldownActive
  | BatchClosedOrInvalid
  | InvalidBatchId
  | ReplayAttempt
  | StateMismatch
  | InvalidProof
  | NotInitialized
deriving DecidableEq, Repr

/-- Name of an error exactly as it is declared in the source. -/
def errName : Err → String
  | Err.NotOwner => "NotOwner"
  | Err.NotProvider => "NotProvider"
  | Err.Paused => "Paused"
  | Err.CooldownActive => "CooldownActive"
  | Err.BatchClosedOrInvalid => "BatchClosedOrInvalid"
  | Err.InvalidBatchId => "InvalidBatchId"
  | Err.ReplayAttempt => "ReplayAttempt"
  | Err.StateMismatch => "StateMismatch"
  | Err.InvalidProof => "InvalidProof"
  | Err.NotInitialized => "NotInitialized"

/-- Result of an external call: revert with a named error, or the new state
together with the events emitted during the call. -/
abbrev CallResult := Except Err (ContractState × List Event)

/-- Pointwise update of a mapping at one key. -/
def setMap {α : Type} (m : Nat → α) (k : Nat) (v : α) : Nat → α :=
  fun x => if x = k then v else m x

/-- Contract state right after the constructor ran with msg.sender = deployer:
owner set, everything else at the Solidity default. -/
def initState (deployer : Nat) : ContractState where
  owner := deployer
  isProvider := fun _ => false
  paused := false
  cooldownSeconds := 0
  lastSubmissionTime := fun _ => 0
  lastDecryptionRequestTime := fun _ => 0
  currentBatchId := 0
  batches := fun _ => { id := 0, totalEncryptedDataPoints := 0, closed := false }
  batchEncryptedData := fun _ => []
  decryptionContexts := fun _ => { batchId := 0, stateHash := 0, processed := false }

/-- transferOwnership(newOwner): onlyOwner; sets owner and emits
OwnershipTransferred(previousOwner, newOwner). -/
def transferOwnership (sender : Nat) (s : ContractState) (newOwner : Nat) : CallResult :=
  if sender ≠ s.owner then Except.error Err.NotOwner
  else Except.ok ({ s with owner := newOwner },
    [Event.OwnershipTransferred s.owner newOwner])

/-- addProvider(provider): onlyOwner; adds and emits only when the address is
not yet a provider, otherwise a silent no-op. -/
def addProvider (sender : Nat) (s : ContractState) (provider : Nat) : CallResult :=
  if sender ≠ s.owner then Except.error Err.NotOwner
  else if s.isProvider provider = false then
    Except.ok ({ s with isProvider := setMap s.isProvider provider true },
      [Event.ProviderAdded provider])
  else Except.ok (s, [])

/-- removeProvider(provider): onlyOwner; removes and emits only when the
address is a provider, otherwise a silent no-op. -/
def removeProvider (sender : Nat) (s : ContractState) (provider : Nat) : CallResult :=
  if sender ≠ s.owner then Except.error Err.NotOwner
  else if s.isProvider provider = true then
    Except.ok ({ s with isProvider := setMap s.isProvider provider false },
      [Event.ProviderRemoved provider])
  else Except.ok (s, [])

/-- setPaused(_paused): onlyOwner; writes and emits ContractPaused or
ContractUnpaused only when the flag changes, otherwise a silent no-op. -/
def setPaused (sender : Nat) (s : ContractState) (wanted : Bool) : CallResult :=
  if sender ≠ s.owner then Except.error Err.NotOwner
  else if wanted ≠ s.paused then
    Except.ok ({ s with paused := wanted },
      [if wanted then Event.ContractPaused sender else Event.ContractUnpaused sender])
  else Except.ok (s, [])

/-- setCooldownSeconds(newCooldownSeconds): onlyOwner; always writes and emits. -/
def setCooldownSeconds (sender : Nat) (s : ContractState) (newCooldownSeconds : Nat) :
    CallResult :=
  if sender ≠ s.owner then Except.error Err.NotOwner
  else Except.ok ({ s with cooldownSeconds := newCooldownSeconds },
    [Event.CooldownSecondsSet s.cooldownSeconds newCooldownSeconds])

/-- openBatch(): onlyOwner, whenNotPaused; allocates the next batch id with
zero records and open, emits BatchOpened. -/
def openBatch (sender : Nat) (s : ContractState) : CallResult :=
  if sender ≠ s.owner then Except.error Err.NotOwner
  else if s.paused then Except.error Err.Paused
  else
    let nid := s.currentBatchId + 1
    Except.ok ({ s with
        currentBatchId := nid,
        batches := setMap s.batches nid
          { id := nid, totalEncryptedDataPoints := 0, closed := false } },
      [Event.BatchOpened nid])

/-- closeBatch(batchId): onlyOwner, whenNotPaused; InvalidBatchId when the id
is 0, above the current id, or already closed; otherwise marks closed and
emits BatchClosed with the final count. -/
def closeBatch (sender : Nat) (s : ContractState) (batchId : Nat) : CallResult :=
  if sender ≠ s.owner then Except.error Err.NotOwner
  else if s.paused then Except.error Err.Paused
  else if batchId = 0 ∨ s.currentBatchId < batchId ∨ (s.batches batchId).closed then
    Except.error Err.InvalidBatchId
  else
    Except.ok ({ s with
        batches := setMap s.batches batchId { s.batches batchId with closed := true } },
      [Event.BatchClosed batchId (s.batches batchId).totalEncryptedDataPoints])

/-- submitEncryptedData(a, b, c): onlyProvider, whenNotPaused,
checkSubmissionCooldown; then each ciphertext must be initialized
(NotInitialized otherwise, in argument order), the current batch must not be
closed (BatchClosedOrInvalid), and on success the record is appended to the
current batch, its count incremented, the submission timestamp of the caller set to
now, and DataSubmitted(sender, currentBatchId, 1) emitted. -/
def submitEncryptedData (ext : Ext) (sender now : Nat)
    (antigenAffinity antibodyCount tCellEffectiveness : Nat) (s : ContractState) :
    CallResult :=
  if s.isProvider sender = false then Except.error Err.NotProvider
  else if s.paused then Except.error Err.Paused
  else if now < s.lastSubmissionTime sender + s.cooldownSeconds then
    Except.error Err.CooldownActive
  else if ext.isInitialized antigenAffinity = false then Except.error Err.NotInitialized
  else if ext.isInitialized antibodyCount = false then Except.error Err.NotInitialized
  else if ext.isInitialized tCellEffectiveness = false then Except.error Err.NotInitialized
  else if (s.batches s.currentBatchId).closed then Except.error Err.BatchClosedOrInvalid
  else
    let bid := s.currentBatchId
    Except.ok ({ s with
        batchEncryptedData := setMap s.batchEncryptedData bid
          (s.batchEncryptedData bid ++
            [{ antigenAffinity := antigenAffinity, antibodyCount := antibodyCount,
               tCellEffectiveness := tCellEffectiveness }]),
        batches := setMap s.batches bid
          { s.batches bid with
            totalEncryptedDataPoints := (s.batches bid).totalEncryptedDataPoints + 1 },
        lastSubmissionTime := setMap s.lastSubmissionTime sender now },
      [Event.DataSubmitted sender bid 1])

/-- Loop of requestBatchAnalysis: left-to-right fheAdd over the batch records,
all three running totals starting from FHE.asEuint32(0), then toBytes32 of
each total in field order. -/
def aggregateCts (ext : Ext) (records : List EncryptedImmuneData) : List Nat :=
  let totals := records.foldl
    (fun acc d =>
      (ext.fheAdd acc.1 d.antigenAffinity,
       ext.fheAdd acc.2.1 d.antibodyCount,
       ext.fheAdd acc.2.2 d.tCellEffectiveness))
    (ext.asEuint32 0, ext.asEuint32 0, ext.asEuint32 0)
  [ext.toBytes32 totals.1, ext.toBytes32 totals.2.1, ext.toBytes32 totals.2.2]

/-- Loop of myCallback, written out at its own call site in the source: the
same left-to-right recomputation from current storage. -/
def callbackCts (ext : Ext) (records : List EncryptedImmuneData) : List Nat :=
  let totals := records.foldl
    (fun acc d =>
      (ext.fheAdd acc.1 d.antigenAffinity,
       ext.fheAdd acc.2.1 d.antibodyCount,
       ext.fheAdd acc.2.2 d.tCellEffectiveness))
    (ext.asEuint32 0, ext.asEuint32 0, ext.asEuint32 0)
  [ext.toBytes32 totals.1, ext.toBytes32 totals.2.1, ext.toBytes32 totals.2.2]

/-- hashCiphertexts(cts) = keccak256(abi.encode(cts, address(this))). -/
def hashCiphertexts (ext : Ext) (cts : List Nat) : Nat :=
  ext.keccakEncode cts ext.selfAddr

/-- requestBatchAnalysis(batchId): onlyOwner, whenNotPaused,
checkDecryptionCooldown; InvalidBatchId when the id is 0, above the current
id, not closed, or has zero records; otherwise aggregates, hashes, dispatches
the decryption request to the oracle, stores the pending context under the
returned requestId, stamps the decryption-request time of the caller and emits
DecryptionRequested. -/
def requestBatchAnalysis (ext : Ext) (sender now : Nat) (batchId : Nat)
    (s : ContractState) : CallResult :=
  if sender ≠ s.owner then Except.error Err.NotOwner
  else if s.paused then Except.error Err.Paused
  else if now < s.lastDecryptionRequestTime sender + s.cooldownSeconds then
    Except.error Err.CooldownActive
  else if batchId = 0 ∨ s.currentBatchId < batchId ∨ (s.batches batchId).closed = false then
    Except.error Err.InvalidBatchId
  else if (s.batches batchId).totalEncryptedDataPoints = 0 then
    Except.error Err.InvalidBatchId
  else
    let cts := aggregateCts ext (s.batchEncryptedData batchId)
    let stateHash := hashCiphertexts ext cts
    let requestId := ext.requestDecryption cts
    Except.ok ({ s with
        decryptionContexts := setMap s.decryptionContexts requestId
          { batchId := batchId, stateHash := stateHash, processed := false },
        lastDecryptionRequestTime := setMap s.lastDecryptionRequestTime sender now },
      [Event.DecryptionRequested requestId batchId stateHash])

/-- Fingerprint myCallback recomputes from current storage for a batch. -/
def callbackStateHash (ext : Ext) (s : ContractState) (batchId : Nat) : Nat :=
  hashCiphertexts ext (callbackCts ext (s.batchEncryptedData batchId))

/-- Decoding of the three 32-byte result words from the cleartexts bytes, as
the assembly block reads the first three words (EVM memory defaults to zero). -/
def decodeResults (cleartexts : List Nat) : List Nat :=
  [cleartexts.getD 0 0, cleartexts.getD 1 0, cleartexts.getD 2 0]

/-- myCallback(requestId, cleartexts, proof): public, no modifier, sender
unused.  Order: ReplayAttempt if the context is processed; recompute the
aggregate and its hash from current storage and fail StateMismatch on any
difference; fail InvalidProof if checkSignatures rejects; else decode three
results, mark processed and emit DecryptionCompleted. -/
def myCallback (ext : Ext) (sender requestId : Nat) (cleartexts proof : List Nat)
    (s : ContractState) : CallResult :=
  if (s.decryptionContexts requestId).processed then Except.error Err.ReplayAttempt
  else
    let ctx := s.decryptionContexts requestId
    if callbackStateHash ext s ctx.batchId ≠ ctx.stateHash then
      Except.error Err.StateMismatch
    else if ext.checkSignatures requestId cleartexts proof = false then
      Except.error Err.InvalidProof
    else
      Except.ok ({ s with
          decryptionContexts := setMap s.decryptionContexts requestId
            { ctx with processed := true } },
        [Event.DecryptionCompleted requestId ctx.batchId (decodeResults cleartexts)])

/-- One external call into the contract, with its msg.sender and, where the
body reads it, its block.timestamp. -/
inductive Call where
  | transferOwnership (sender newOwner : Nat)
  | addProvider (sender provider : Nat)
  | removeProvider (sender provider : Nat)
  | setPaused (sender : Nat) (wanted : Bool)
  | setCooldownSeconds (sender newCooldownSeconds : Nat)
  | openBatch (sender : Nat)
  | closeBatch (sender batchId : Nat)
  | submitEncryptedData (sender now antigenAffinity antibodyCount tCellEffectiveness : Nat)
  | requestBatchAnalysis (sender now batchId : Nat)
  | myCallback (sender requestId : Nat) (cleartexts proof : List Nat)
deriving DecidableEq, Repr

/-- Dispatch one call against the contract. -/
def runCall (ext : Ext) (s : ContractState) : Call → CallResult
  | Call.transferOwnership sender newOwner => transferOwnership sender s newOwner
  | Call.addProvider sender provider => addProvider sender s provider
  | Call.removeProvider sender provider => removeProvider sender s provider
  | Call.setPaused sender wanted => setPaused sender s wanted
  | Call.setCooldownSeconds sender v => setCooldownSeconds sender s v
  | Call.openBatch sender => openBatch sender s
  | Call.closeBatch sender batchId => closeBatch sender s batchId
  | Call.submitEncryptedData sender now a b c => submitEncryptedData ext sender now a b c s
  | Call.requestBatchAnalysis sender now batchId => requestBatchAnalysis ext sender now batchId s
  | Call.myCallback sender requestId cleartexts proof =>
      myCallback ext sender requestId cleartexts proof s

/-- State after one call: on a revert the pre-call state is kept. -/
def execCall (ext : Ext) (s : ContractState) (c : Call) : ContractState :=
  match runCall ext s c with
  | Except.ok r => r.1
  | Except.error _ => s

/-- State after a sequence of calls. -/
def runTrace (ext : Ext) (s : ContractState) : List Call → ContractState
  | [] => s
  | c :: cs => runTrace ext (execCall ext s c) cs

/-- A call is an accepted submission into batch b when it is a
submitEncryptedData call that succeeds in state s while b is the current
batch. -/
def isAcceptedSubmit (ext : Ext) (s : ContractState) (c : Call) (b : Nat) : Bool :=
  match c with
  | Call.submitEncryptedData sender now x y z =>
      s.currentBatchId = b ∧
        (runCall ext s (Call.submitEncryptedData sender now x y z)).isOk
  | _ => false

/-- Number of accepted submissions into batch b along a trace. -/
def countAccepted (ext : Ext) (b : Nat) : ContractState → List Call → Nat
  | _, [] => 0
  | s, c :: cs =>
      (if isAcceptedSubmit ext s c b then 1 else 0) +
        countAccepted ext b (execCall ext s c) cs

/-- Concrete instantiation of the external capabilities, used to evaluate the
theorems on closed inputs: handles are plain numbers, fheAdd is addition,
the digest is an injective fold, the oracle hands out the digest sum plus a
base offset as requestId, and a proof is accepted when its first word equals
the requestId. -/
def demoExt : Ext where
  asEuint32 n := n
  fheAdd a b := a + b
  toBytes32 n := n
  isInitialized n := n ≠ 0
  keccakEncode cts addr := (cts.foldl (fun h c => h * 1000003 + c + 1) 7) * 1000003 + addr
  requestDecryption cts := cts.foldl (fun a c => a + c) 42
  checkSignatures requestId cleartexts proof := proof.headD 0 = requestId
  selfAddr := 77

/-- Names of the ten errors the contract declares, as written in the source. -/
def codeErrorNames : List String :=
  ["NotOwner", "NotProvider", "Paused", "CooldownActive", "BatchClosedOrInvalid",
   "InvalidBatchId", "ReplayAttempt", "StateMismatch", "InvalidProof", "NotInitialized"]

/-- Error names as the spec lists them (section 7): this definition follows the
spec wording, to be compared with the error names of the source; the spec
names a single Unauthorized condition where the source has NotOwner and
NotProvider. -/
def specErrorNames : List String :=
  ["Unauthorized", "Paused", "CooldownActive", "InvalidBatchId", "BatchClosedOrInvalid",
   "NotInitialized", "ReplayAttempt", "StateMismatch", "InvalidProof"]

/-- Every batch above the current id still has zero records.  This holds in
every reachable state: ids above the current one were never current, so no
submission ever targeted them. -/
def untouchedAbove (s : ContractState) : Prop :=
  ∀ b, s.currentBatchId < b → (s.batches b).totalEncryptedDataPoints = 0

/-- While no batch was ever opened, the default batch 0 is not closed.  This
holds in every reachable state: closeBatch rejects id 0, and openBatch bumps
the current id away from 0. -/
def inv0 (s : ContractState) : Prop :=
  s.currentBatchId = 0 → (s.batches 0).closed = false

/-- Scenario: owner 0 adds provider 1, opens batch 1, provider 1 submits the
record (5, 6, 7), owner closes batch 1. -/
def preTrace : List Call :=
  [Call.addProvider 0 1, Call.openBatch 0,
   Call.submitEncryptedData 1 0 5 6 7, Call.closeBatch 0 1]

/-- State after preTrace: batch 1 closed with one record. -/
def sPre : ContractState := runTrace demoExt (initState 0) preTrace

/-- State after the owner requested analysis of batch 1: a pending context is
stored under requestId 60 (demoExt hands out 42 + 5 + 6 + 7). -/
def sReq : ContractState := execCall demoExt sPre (Call.requestBatchAnalysis 0 0 1)

/-- State after the oracle callback for requestId 60 completed. -/
def sDone : ContractState := execCall demoExt sReq (Call.myCallback 9 60 [11, 13, 17] [60])

/-- State with provider 1 and no batch ever opened. -/
def sProv : ContractState := execCall demoExt (initState 0) (Call.addProvider 0 1)

/-- Cooldown scenario: provider 1 added, cooldown set to 10 seconds, batch 1
opened, provider 1 submitted at time 100. -/
def cdTrace : List Call :=
  [Call.addProvider 0 1, Call.setCooldownSeconds 0 10, Call.openBatch 0,
   Call.submitEncryptedData 1 100 5 6 7]

/-- State after cdTrace: lastSubmissionTime of provider 1 is 100, cooldown 10. -/
def sCd : ContractState := runTrace demoExt (initState 0) cdTrace

/-- State after provider 1 submits again at time 110, one cooldown later. -/
def sCd2 : ContractState := execCall demoExt sCd (Call.submitEncryptedData 1 110 5 6 7)

/-- Folding the three-field step function splits into three independent
left-to-right folds, one per field. -/
lemma foldl_triple (ext : Ext) (records : List EncryptedImmuneData) (a b c : Nat) :
    records.foldl
      (fun acc d =>
        (ext.fheAdd acc.1 d.antigenAffinity,
         ext.fheAdd acc.2.1 d.antibodyCount,
         ext.fheAdd acc.2.2 d.tCellEffectiveness))
      (a, b, c) =
    (records.foldl (fun acc d => ext.fheAdd acc d.antigenAffinity) a,
     records.foldl (fun acc d => ext.fheAdd acc d.antibodyCount) b,
     records.foldl (fun acc d => ext.fheAdd acc d.tCellEffectiveness) c) := by
  induction records generalizing a b c with
  | nil => rfl
  | cons d tl ih => simp only [List.foldl_cons]; exact ih _ _ _

/-- Claim C1: once a DecryptionContext has processed = true for a requestId,
any invocation of myCallback with that requestId fails with ReplayAttempt and
leaves the stored context and all other contract state unchanged. -/
theorem claim_C1 (ext : Ext) (sender requestId : Nat) (cleartexts proof : List Nat)
    (s : ContractState) (h : (s.decryptionContexts requestId).processed = true) :
    myCallback ext sender requestId cleartexts proof s = Except.error Err.ReplayAttempt ∧
    execCall ext s (Call.myCallback sender requestId cleartexts proof) = s := by
  constructor
  · unfold myCallback
    simp [h]
  · unfold execCall runCall myCallback
    simp [h]

/-- Witness for C1 at the concrete completed scenario state. -/
theorem claim_C1_witness :
    (sDone.decryptionContexts 60).processed = true ∧
    (myCallback demoExt 9 60 [11, 13, 17] [60] sDone = Except.error Err.ReplayAttempt ∧
     execCall demoExt sDone (Call.myCallback 9 60 [11, 13, 17] [60]) = sDone) :=
  ⟨by decide, claim_C1 demoExt 9 60 [11, 13, 17] [60] sDone (by decide)⟩

/-- Claim C7: addProvider, removeProvider and setPaused called by the owner
are idempotent with no-op event emission: re-adding an existing provider or
removing a non-member changes no state and emits no event; toggling the pause
flag to its current value is a silent no-op, so setPaused(true) twice emits
ContractPaused only once; each operation emits its event exactly when it
changes state. -/
theorem claim_C7 (sender provider : Nat) (s : ContractState) (wanted : Bool)
    (h : sender = s.owner) :
    (s.isProvider provider = true → addProvider sender s provider = Except.ok (s, [])) ∧
    (s.isProvider provider = false → addProvider sender s provider =
      Except.ok ({ s with isProvider := setMap s.isProvider provider true },
        [Event.ProviderAdded provider])) ∧
    (s.isProvider provider = false → removeProvider sender s provider = Except.ok (s, [])) ∧
    (s.isProvider provider = true → removeProvider sender s provider =
      Except.ok ({ s with isProvider := setMap s.isProvider provider false },
        [Event.ProviderRemoved provider])) ∧
    (s.paused = wanted → setPaused sender s wanted = Except.ok (s, [])) ∧
    (s.paused ≠ wanted → setPaused sender s wanted =
      Except.ok ({ s with paused := wanted },
        [if wanted then Event.ContractPaused sender else Event.ContractUnpaused sender])) ∧
    (s.paused = false →
      setPaused sender s true =
        Except.ok ({ s with paused := true }, [Event.ContractPaused sender]) ∧
      setPaused sender { s with paused := true } true =
        Except.ok ({ s with paused := true }, [])) := by
  refine ⟨?_, ?_, ?_, ?_, ?_, ?_, ?_⟩ <;> intro hc
  · simp [addProvider, h, hc]
  · simp [addProvider, h, hc]
  · simp [removeProvider, h, hc]
  · simp [removeProvider, h, hc]
  · simp [setPaused, h, hc]
  · simp [setPaused, h, Ne.symm hc]
  · constructor
    · simp [setPaused, h, hc]
    · simp [setPaused, h]

/-- Witness for C7: re-adding provider 1 in sProv is a silent no-op, and the
pause toggle emits only on the first of two setPaused(true) calls. -/
theorem claim_C7_witness :
    0 = sProv.owner ∧
    (sProv.isProvider 1 = true ∧ addProvider 0 sProv 1 = Except.ok (sProv, [])) ∧
    (sProv.paused = false ∧
      setPaused 0 sProv true =
        Except.ok ({ sProv with paused := true }, [Event.ContractPaused 0]) ∧
      setPaused 0 { sProv with paused := true } true =
        Except.ok ({ sProv with paused := true }, [])) :=
  ⟨by decide,
   ⟨by decide, (claim_C7 0 1 sProv true (by decide)).1 (by decide)⟩,
   ⟨by decide, (claim_C7 0 1 sProv true (by decide)).2.2.2.2.2.2 (by decide)⟩⟩

/-- Claim C10: myCallback is callable by every address and is gated neither by
the pause flag nor by owner/provider authorization: its result does not depend
on the caller, flipping the pause flag changes nothing but the flag itself in
the outcome, and its only failure conditions are ReplayAttempt, StateMismatch
and InvalidProof (never Paused, NotOwner or NotProvider). -/
theorem claim_C10 (ext : Ext) (sender otherSender requestId : Nat)
    (cleartexts proof : List Nat) (s : ContractState) (b : Bool) :
    myCallback ext sender requestId cleartexts proof s =
      myCallback ext otherSender requestId cleartexts proof s ∧
    myCallback ext sender requestId cleartexts proof { s with paused := b } =
      Except.map (fun r => ({ r.1 with paused := b }, r.2))
        (myCallback ext sender requestId cleartexts proof s) ∧
    (∀ e, myCallback ext sender requestId cleartexts proof s = Except.error e →
      e = Err.ReplayAttempt ∨ e = Err.StateMismatch ∨ e = Err.InvalidProof) := by
  refine ⟨rfl, ?_, ?_⟩
  · unfold myCallback
    simp only [callbackStateHash]
    split_ifs <;> rfl
  · intro e he
    simp only [myCallback] at he
    split_ifs at he <;> simp_all

/-- Witness for C10: the replayed callback on the completed scenario state
fails with one of the three callback errors. -/
theorem claim_C10_witness :
    Err.ReplayAttempt = Err.ReplayAttempt ∨ Err.ReplayAttempt = Err.StateMismatch ∨
      Err.ReplayAttempt = Err.InvalidProof :=
  (claim_C10 demoExt 9 8 60 [11, 13, 17] [60] sDone true).2.2 Err.ReplayAttempt (by rfl)

/-- Claim C2: myCallback checks in the fixed order replay (ReplayAttempt),
then fingerprint (StateMismatch), then proof (InvalidProof); only after all
three pass does it decode exactly three results, set processed to true and
emit the completion event; a callback failing any check mutates no state. -/
theorem claim_C2 (ext : Ext) (sender requestId : Nat) (cleartexts proof : List Nat)
    (s : ContractState) :
    ((s.decryptionContexts requestId).processed = true →
      myCallback ext sender requestId cleartexts proof s =
        Except.error Err.ReplayAttempt) ∧
    ((s.decryptionContexts requestId).processed = false →
      callbackStateHash ext s (s.decryptionContexts requestId).batchId ≠
        (s.decryptionContexts requestId).stateHash →
      myCallback ext sender requestId cleartexts proof s =
        Except.error Err.StateMismatch) ∧
    ((s.decryptionContexts requestId).processed = false →
      callbackStateHash ext s (s.decryptionContexts requestId).batchId =
        (s.decryptionContexts requestId).stateHash →
      ext.checkSignatures requestId cleartexts proof = false →
      myCallback ext sender requestId cleartexts proof s =
        Except.error Err.InvalidProof) ∧
    ((s.decryptionContexts requestId).processed = false →
      callbackStateHash ext s (s.decryptionContexts requestId).batchId =
        (s.decryptionContexts requestId).stateHash →
      ext.checkSignatures requestId cleartexts proof = true →
      myCallback ext sender requestId cleartexts proof s =
        Except.ok ({ s with
            decryptionContexts := setMap s.decryptionContexts requestId
              { s.decryptionContexts requestId with processed := true } },
          [Event.DecryptionCompleted requestId (s.decryptionContexts requestId).batchId
            (decodeResults cleartexts)])) ∧
    (∀ e, myCallback ext sender requestId cleartexts proof s = Except.error e →
      execCall ext s (Call.myCallback sender requestId cleartexts proof) = s) := by
  refine ⟨?_, ?_, ?_, ?_, ?_⟩
  · intro h1
    simp [myCallback, h1]
  · intro h1 h2
    simp [myCallback, h1, h2]
  · intro h1 h2 h3
    simp [myCallback, h1, h2, h3]
  · intro h1 h2 h3
    simp [myCallback, h1, h2, h3]
  · intro e he
    simp only [execCall, runCall, he]

/-- Witness for C2: the pending scenario context at requestId 60 passes all
three checks and completes; replaying it afterwards fails the first check. -/
theorem claim_C2_witness :
    ((sReq.decryptionContexts 60).processed = false ∧
     callbackStateHash demoExt sReq (sReq.decryptionContexts 60).batchId =
       (sReq.decryptionContexts 60).stateHash ∧
     demoExt.checkSignatures 60 [11, 13, 17] [60] = true ∧
     myCallback demoExt 9 60 [11, 13, 17] [60] sReq =
       Except.ok ({ sReq with
           decryptionContexts := setMap sReq.decryptionContexts 60
             { sReq.decryptionContexts 60 with processed := true } },
         [Event.DecryptionCompleted 60 (sReq.decryptionContexts 60).batchId
           (decodeResults [11, 13, 17])])) ∧
    ((sDone.decryptionContexts 60).processed = true ∧
     myCallback demoExt 9 60 [11, 13, 17] [60] sDone = Except.error Err.ReplayAttempt) :=
  ⟨⟨by decide, by decide, by decide,
    (claim_C2 demoExt 9 60 [11, 13, 17] [60] sReq).2.2.2.1 (by decide) (by decide) (by decide)⟩,
   ⟨by decide, (claim_C2 demoExt 9 60 [11, 13, 17] [60] sDone).1 (by decide)⟩⟩

/-- Claim C6: for an authorized actor on a live contract, submission and
decryption-request calls are rejected with CooldownActive exactly when
now < lastActionTime[actor] + cooldownSeconds for that action kind, and a
successful call updates the per-kind timestamp of the actor to now. -/
theorem claim_C6 (ext : Ext) (sender now x y z batchId : Nat) (s : ContractState) :
    (s.isProvider sender = true → s.paused = false →
      (submitEncryptedData ext sender now x y z s = Except.error Err.CooldownActive ↔
        now < s.lastSubmissionTime sender + s.cooldownSeconds)) ∧
    (∀ s2 ev, submitEncryptedData ext sender now x y z s = Except.ok (s2, ev) →
      s2.lastSubmissionTime sender = now) ∧
    (sender = s.owner → s.paused = false →
      (requestBatchAnalysis ext sender now batchId s = Except.error Err.CooldownActive ↔
        now < s.lastDecryptionRequestTime sender + s.cooldownSeconds)) ∧
    (∀ s2 ev, requestBatchAnalysis ext sender now batchId s = Except.ok (s2, ev) →
      s2.lastDecryptionRequestTime sender = now) := by
  refine ⟨?_, ?_, ?_, ?_⟩
  · intro hp hpa
    unfold submitEncryptedData
    split_ifs <;> simp_all
  · intro s2 ev hok
    unfold submitEncryptedData at hok
    split_ifs at hok <;> try exact Except.noConfusion hok
    injection hok with h
    injection h with h1 h2
    subst h1
    simp [setMap]
  · intro ho hpa
    unfold requestBatchAnalysis
    split_ifs <;> simp_all
  · intro s2 ev hok
    unfold requestBatchAnalysis at hok
    split_ifs at hok <;> try exact Except.noConfusion hok
    injection hok with h
    injection h with h1 h2
    subst h1
    simp [setMap]

/-- Witness for C6: in the cooldown scenario, provider 1 who submitted at 100
with a 10-second cooldown is rejected at 105 and accepted at 110, with the
timestamp updated to 110. -/
theorem claim_C6_witness :
    (sCd.isProvider 1 = true ∧ sCd.paused = false ∧ 105 < sCd.lastSubmissionTime 1 + sCd.cooldownSeconds ∧
      submitEncryptedData demoExt 1 105 5 6 7 sCd = Except.error Err.CooldownActive) ∧
    (submitEncryptedData demoExt 1 110 5 6 7 sCd =
      Except.ok (sCd2, [Event.DataSubmitted 1 1 1]) ∧ sCd2.lastSubmissionTime 1 = 110) :=
  ⟨⟨by decide, by decide, by decide,
    ((claim_C6 demoExt 1 105 5 6 7 1 sCd).1 (by decide) (by decide)).mpr (by decide)⟩,
   ⟨by rfl,
    (claim_C6 demoExt 1 110 5 6 7 1 sCd).2.1 sCd2 [Event.DataSubmitted 1 1 1] (by rfl)⟩⟩

/-- Claim C3: for the owner, not paused and off cooldown, requestBatchAnalysis
fails with InvalidBatchId exactly when the id is 0, above the current id, the
batch is not closed, or it has zero records; otherwise it computes for each of
the three fields independently a left-to-right homomorphic sum starting from
an encrypted zero, stores a DecryptionContext with processed = false under the
oracle-issued requestId, and emits the request event. -/
theorem claim_C3 (ext : Ext) (sender now batchId : Nat) (s : ContractState)
    (hown : sender = s.owner) (hpaused : s.paused = false)
    (hcool : s.lastDecryptionRequestTime sender + s.cooldownSeconds ≤ now) :
    (requestBatchAnalysis ext sender now batchId s = Except.error Err.InvalidBatchId ↔
      (batchId = 0 ∨ s.currentBatchId < batchId ∨ (s.batches batchId).closed = false ∨
        (s.batches batchId).totalEncryptedDataPoints = 0)) ∧
    ((batchId ≠ 0 ∧ batchId ≤ s.currentBatchId ∧ (s.batches batchId).closed = true ∧
        (s.batches batchId).totalEncryptedDataPoints ≠ 0) →
      requestBatchAnalysis ext sender now batchId s =
        Except.ok ({ s with
            decryptionContexts := setMap s.decryptionContexts
              (ext.requestDecryption (aggregateCts ext (s.batchEncryptedData batchId)))
              { batchId := batchId,
                stateHash := hashCiphertexts ext (aggregateCts ext (s.batchEncryptedData batchId)),
                processed := false },
            lastDecryptionRequestTime := setMap s.lastDecryptionRequestTime sender now },
          [Event.DecryptionRequested
            (ext.requestDecryption (aggregateCts ext (s.batchEncryptedData batchId)))
            batchId
            (hashCiphertexts ext (aggregateCts ext (s.batchEncryptedData batchId)))])) ∧
    aggregateCts ext (s.batchEncryptedData batchId) =
      [ext.toBytes32 ((s.batchEncryptedData batchId).foldl
          (fun acc d => ext.fheAdd acc d.antigenAffinity) (ext.asEuint32 0)),
       ext.toBytes32 ((s.batchEncryptedData batchId).foldl
          (fun acc d => ext.fheAdd acc d.antibodyCount) (ext.asEuint32 0)),
       ext.toBytes32 ((s.batchEncryptedData batchId).foldl
          (fun acc d => ext.fheAdd acc d.tCellEffectiveness) (ext.asEuint32 0))] := by
  have hnlt : ¬ now < s.lastDecryptionRequestTime sender + s.cooldownSeconds :=
    Nat.not_lt.mpr hcool
  refine ⟨?_, ?_, ?_⟩
  · unfold requestBatchAnalysis
    split_ifs with h1 h2 h3 h4 h5 <;> simp_all <;> tauto
  · rintro ⟨hc1, hc2, hc3, hc4⟩
    unfold requestBatchAnalysis
    split_ifs with h1 h2 h3 h4 h5 <;> simp_all
    omega
  · simp [aggregateCts, foldl_triple]

/-- Witness for C3: the request on the closed one-record batch 1 succeeds and
stores the pending context, while batch id 0 is rejected with InvalidBatchId. -/
theorem claim_C3_witness :
    (0 = sPre.owner ∧ sPre.paused = false ∧
      sPre.lastDecryptionRequestTime 0 + sPre.cooldownSeconds ≤ 0) ∧
    requestBatchAnalysis demoExt 0 0 1 sPre =
      Except.ok ({ sPre with
          decryptionContexts := setMap sPre.decryptionContexts 60
            { batchId := 1,
              stateHash := hashCiphertexts demoExt (aggregateCts demoExt (sPre.batchEncryptedData 1)),
              processed := false },
          lastDecryptionRequestTime := setMap sPre.lastDecryptionRequestTime 0 0 },
        [Event.DecryptionRequested 60 1
          (hashCiphertexts demoExt (aggregateCts demoExt (sPre.batchEncryptedData 1)))]) ∧
    requestBatchAnalysis demoExt 0 0 0 sPre = Except.error Err.InvalidBatchId :=
  ⟨⟨by decide, by decide, by decide⟩,
   (claim_C3 demoExt 0 0 1 sPre (by decide) (by decide) (by decide)).2.1
     ⟨by decide, by decide, by decide, by decide⟩,
   (claim_C3 demoExt 0 0 0 sPre (by decide) (by decide) (by decide)).1.mpr (Or.inl rfl)⟩

/-- Claim C5: aggregation is deterministic and re-entrant.  The callback-side
recomputation is the same function as the request-side aggregation; after a
successful requestBatchAnalysis the batch records are unchanged, so the
fingerprint myCallback re-derives over the post-request state equals the
stored stateHash. -/
theorem claim_C5 (ext : Ext) (sender now batchId : Nat) (s s2 : ContractState)
    (ev : List Event)
    (h : requestBatchAnalysis ext sender now batchId s = Except.ok (s2, ev)) :
    (∀ records, callbackCts ext records = aggregateCts ext records) ∧
    s2.batchEncryptedData
        ((s2.decryptionContexts
          (ext.requestDecryption (aggregateCts ext (s.batchEncryptedData batchId)))).batchId) =
      s.batchEncryptedData batchId ∧
    callbackStateHash ext s2
        ((s2.decryptionContexts
          (ext.requestDecryption (aggregateCts ext (s.batchEncryptedData batchId)))).batchId) =
      (s2.decryptionContexts
        (ext.requestDecryption (aggregateCts ext (s.batchEncryptedData batchId)))).stateHash := by
  refine ⟨fun records => rfl, ?_⟩
  unfold requestBatchAnalysis at h
  split_ifs at h <;> try exact Except.noConfusion h
  injection h with h
  injection h with h1 h2
  subst h1
  constructor
  · simp [setMap]
  · simp [setMap, callbackStateHash]
    rfl

/-- Witness for C5 at the concrete request on batch 1. -/
theorem claim_C5_witness :
    requestBatchAnalysis demoExt 0 0 1 sPre =
      Except.ok (sReq, [Event.DecryptionRequested 60 1
        (hashCiphertexts demoExt (aggregateCts demoExt (sPre.batchEncryptedData 1)))]) ∧
    callbackStateHash demoExt sReq ((sReq.decryptionContexts 60).batchId) =
      (sReq.decryptionContexts 60).stateHash :=
  ⟨by rfl,
   (claim_C5 demoExt 0 0 1 sPre sReq
     [Event.DecryptionRequested 60 1
       (hashCiphertexts demoExt (aggregateCts demoExt (sPre.batchEncryptedData 1)))]
     (by rfl)).2.2⟩

/-- Counterexample for C8 as stated: transferOwnership called by the
non-owner address 1 fails with the error named NotOwner, which is not the
name Unauthorized and is not among the error names the spec lists. -/
theorem claim_C8_counterexample :
    transferOwnership 1 (initState 0) 2 = Except.error Err.NotOwner ∧
    errName Err.NotOwner ≠ "Unauthorized" ∧
    errName Err.NotOwner ∉ specErrorNames := by
  refine ⟨rfl, by decide, by decide⟩

/-- Claim C8 amended: every AccessControl operation (transferOwnership,
addProvider, removeProvider, setPaused) invoked by a caller other than the
current owner fails with the distinct named error NotOwner, and every error
surfaced by the contract is one of the named conditions NotOwner, NotProvider,
Paused, CooldownActive, InvalidBatchId, BatchClosedOrInvalid, NotInitialized,
ReplayAttempt, StateMismatch, InvalidProof. -/
theorem claim_C8_amended (ext : Ext) (sender : Nat) (s : ContractState)
    (newOwner provider : Nat) (wanted : Bool) (h : sender ≠ s.owner) :
    transferOwnership sender s newOwner = Except.error Err.NotOwner ∧
    addProvider sender s provider = Except.error Err.NotOwner ∧
    removeProvider sender s provider = Except.error Err.NotOwner ∧
    setPaused sender s wanted = Except.error Err.NotOwner ∧
    (∀ c e, runCall ext s c = Except.error e → errName e ∈ codeErrorNames) := by
  refine ⟨?_, ?_, ?_, ?_, ?_⟩
  · simp [transferOwnership, h]
  · simp [addProvider, h]
  · simp [removeProvider, h]
  · simp [setPaused, h]
  · intro c e _
    cases e <;> simp [errName, codeErrorNames]

/-- Witness for the amended C8 at the non-owner caller 1. -/
theorem claim_C8_amended_witness :
    (1 ≠ (initState 0).owner) ∧
    transferOwnership 1 (initState 0) 2 = Except.error Err.NotOwner ∧
    setPaused 1 (initState 0) true = Except.error Err.NotOwner :=
  ⟨by decide,
   (claim_C8_amended demoExt 1 (initState 0) 2 3 true (by decide)).1,
   (claim_C8_amended demoExt 1 (initState 0) 2 3 true (by decide)).2.2.2.1⟩

/-- No call ever decreases the current batch id. -/
lemma execCall_current_le (ext : Ext) (s : ContractState) (c : Call) :
    s.currentBatchId ≤ (execCall ext s c).currentBatchId := by
  cases c <;>
    simp only [execCall, runCall, transferOwnership, addProvider, removeProvider, setPaused,
      setCooldownSeconds, openBatch, closeBatch, submitEncryptedData, requestBatchAnalysis,
      myCallback] <;>
    split_ifs <;> simp

/-- Every call preserves inv0: while no batch was ever opened, batch 0 stays
open, since closeBatch rejects id 0 and submissions only touch the count. -/
lemma execCall_inv0 (ext : Ext) (s : ContractState) (c : Call) (h : inv0 s) :
    inv0 (execCall ext s c) := by
  intro hc0
  have hle := execCall_current_le ext s c
  have hs0 : s.currentBatchId = 0 := by omega
  have hcl : (s.batches 0).closed = false := h hs0
  cases c <;>
    simp only [execCall, runCall, transferOwnership, addProvider, removeProvider, setPaused,
      setCooldownSeconds, openBatch, closeBatch, submitEncryptedData, requestBatchAnalysis,
      myCallback] at hc0 ⊢ <;>
    split_ifs at hc0 ⊢ <;> simp_all [setMap] <;> omega

/-- Starting from the constructor state, inv0 holds in every reachable state. -/
lemma runTrace_inv0 (ext : Ext) (deployer : Nat) (tr : List Call) :
    inv0 (runTrace ext (initState deployer) tr) := by
  have main : ∀ tr2 s, inv0 s → inv0 (runTrace ext s tr2) := by
    intro tr2
    induction tr2 with
    | nil => intro s h; exact h
    | cons c cs ih =>
        intro s h
        exact ih _ (execCall_inv0 ext s c h)
  exact main tr _ (fun _ => rfl)

/-- Claim C9: in every reachable state where no batch has ever been opened
(currentBatchId = 0), a submission by a provider with initialized ciphertexts,
not paused and off cooldown does not fail BatchClosedOrInvalid: it appends the
record under batch id 0 and increments batches[0].totalEncryptedDataPoints,
even though batch 0 was never created by openBatch; and requestBatchAnalysis
always rejects batch id 0 with InvalidBatchId once its access gates pass, so
such records can never be analyzed. -/
theorem claim_C9 (ext : Ext) (sender now x y z : Nat) (s : ContractState)
    (hreach : ∃ deployer tr, s = runTrace ext (initState deployer) tr)
    (hcur : s.currentBatchId = 0) (hprov : s.isProvider sender = true)
    (hpaused : s.paused = false)
    (hcool : s.lastSubmissionTime sender + s.cooldownSeconds ≤ now)
    (hx : ext.isInitialized x = true) (hy : ext.isInitialized y = true)
    (hz : ext.isInitialized z = true) :
    submitEncryptedData ext sender now x y z s =
      Except.ok ({ s with
          batchEncryptedData := setMap s.batchEncryptedData 0
            (s.batchEncryptedData 0 ++
              [{ antigenAffinity := x, antibodyCount := y, tCellEffectiveness := z }]),
          batches := setMap s.batches 0
            { s.batches 0 with
              totalEncryptedDataPoints := (s.batches 0).totalEncryptedDataPoints + 1 },
          lastSubmissionTime := setMap s.lastSubmissionTime sender now },
        [Event.DataSubmitted sender 0 1]) ∧
    (∀ who t2 s3, who = s3.owner → s3.paused = false →
      s3.lastDecryptionRequestTime who + s3.cooldownSeconds ≤ t2 →
      requestBatchAnalysis ext who t2 0 s3 = Except.error Err.InvalidBatchId) := by
  obtain ⟨deployer, tr, rfl⟩ := hreach
  have hclosed : ((runTrace ext (initState deployer) tr).batches 0).closed = false :=
    runTrace_inv0 ext deployer tr hcur
  constructor
  · unfold submitEncryptedData
    simp [hprov, hpaused, Nat.not_lt.mpr hcool, hx, hy, hz, hcur, hclosed]
  · intro who t2 s3 hwho hp3 hc3
    subst hwho
    unfold requestBatchAnalysis
    simp [hp3, Nat.not_lt.mpr hc3]

/-- Witness for C9: in the reachable state sProv (provider 1 added, no batch
ever opened) provider 1 successfully submits under batch id 0, and the
analysis request for batch 0 is rejected. -/
theorem claim_C9_witness :
    submitEncryptedData demoExt 1 0 5 6 7 sProv =
      Except.ok ({ sProv with
          batchEncryptedData := setMap sProv.batchEncryptedData 0
            (sProv.batchEncryptedData 0 ++
              [{ antigenAffinity := 5, antibodyCount := 6, tCellEffectiveness := 7 }]),
          batches := setMap sProv.batches 0
            { sProv.batches 0 with
              totalEncryptedDataPoints := (sProv.batches 0).totalEncryptedDataPoints + 1 },
          lastSubmissionTime := setMap sProv.lastSubmissionTime 1 0 },
        [Event.DataSubmitted 1 0 1]) ∧
    requestBatchAnalysis demoExt 0 0 0 sProv = Except.error Err.InvalidBatchId := by
  have h := claim_C9 demoExt 1 0 5 6 7 sProv
    ⟨0, [Call.addProvider 0 1], rfl⟩ (by decide) (by decide) (by decide) (by decide)
    (by decide) (by decide) (by decide)
  exact ⟨h.1, h.2 0 0 sProv (by decide) (by decide) (by decide)⟩

/-- Effect of one call on a batch record count: an accepted submission into
batch b adds exactly one, every other call leaves it unchanged. -/
lemma execCall_count_step (ext : Ext) (s : ContractState) (c : Call) (b : Nat)
    (h : untouchedAbove s) :
    ((execCall ext s c).batches b).totalEncryptedDataPoints =
      (s.batches b).totalEncryptedDataPoints +
        (if isAcceptedSubmit ext s c b then 1 else 0) := by
  cases c with
  | transferOwnership sender newOwner =>
      simp only [execCall, runCall, transferOwnership, isAcceptedSubmit]
      split_ifs <;> simp_all
  | addProvider sender provider =>
      simp only [execCall, runCall, addProvider, isAcceptedSubmit]
      split_ifs <;> simp_all
  | removeProvider sender provider =>
      simp only [execCall, runCall, removeProvider, isAcceptedSubmit]
      split_ifs <;> simp_all
  | setPaused sender wanted =>
      simp only [execCall, runCall, setPaused, isAcceptedSubmit]
      split_ifs <;> simp_all
  | setCooldownSeconds sender v =>
      simp only [execCall, runCall, setCooldownSeconds, isAcceptedSubmit]
      split_ifs <;> simp_all
  | openBatch sender =>
      simp only [execCall, runCall, openBatch, isAcceptedSubmit]
      split_ifs with h1 h2 h3 <;> simp_all [setMap]
      split_ifs with hb
      · rw [hb, h (s.currentBatchId + 1) (by omega)]
      · rfl
  | closeBatch sender batchId =>
      simp only [execCall, runCall, closeBatch, isAcceptedSubmit]
      split_ifs with h1 h2 h3 <;> simp_all [setMap]
      split_ifs with hb
      · rw [hb]
      · rfl
  | submitEncryptedData sender now x y z =>
      simp only [execCall, runCall, submitEncryptedData, isAcceptedSubmit]
      split_ifs <;> simp_all [setMap, Except.isOk, Except.toBool] <;> split_ifs <;> simp_all
  | requestBatchAnalysis sender now batchId =>
      simp only [execCall, runCall, requestBatchAnalysis, isAcceptedSubmit]
      split_ifs <;> simp_all
  | myCallback sender requestId cleartexts proof =>
      simp only [execCall, runCall, myCallback, isAcceptedSubmit]
      split_ifs <;> simp_all

/-- Every call preserves untouchedAbove: batches above the current id never
receive records, because submissions only target the current batch and
openBatch starts the fresh id at zero records. -/
lemma execCall_untouchedAbove (ext : Ext) (s : ContractState) (c : Call)
    (h : untouchedAbove s) : untouchedAbove (execCall ext s c) := by
  intro b hb
  have hle := execCall_current_le ext s c
  have hlt : s.currentBatchId < b := by omega
  have hind : isAcceptedSubmit ext s c b = false := by
    cases c <;> simp [isAcceptedSubmit]
    intro hcb
    exact absurd hcb (by omega)
  rw [execCall_count_step ext s c b h, hind]
  simpa using h b hlt

/-- Along any trace, the count of batch b grows by exactly the number of
accepted submissions into b. -/
lemma runTrace_count (ext : Ext) (b : Nat) (tr : List Call) :
    ∀ s, untouchedAbove s →
      ((runTrace ext s tr).batches b).totalEncryptedDataPoints =
        (s.batches b).totalEncryptedDataPoints + countAccepted ext b s tr := by
  induction tr with
  | nil =>
      intro s h
      simp [runTrace, countAccepted]
  | cons c cs ih =>
      intro s h
      simp only [runTrace, countAccepted]
      rw [ih _ (execCall_untouchedAbove ext s c h), execCall_count_step ext s c b h]
      omega

/-- Claim C4: starting from the constructor state, for each batch the
totalEncryptedDataPoints equals the number of accepted submitEncryptedData
calls into that batch, for every sequence of calls; and every rejected
submitEncryptedData call leaves the whole state, in particular every record
count and record list, unchanged. -/
theorem claim_C4 (ext : Ext) (deployer : Nat) (tr : List Call) (b : Nat) :
    ((runTrace ext (initState deployer) tr).batches b).totalEncryptedDataPoints =
      countAccepted ext b (initState deployer) tr ∧
    (∀ s sender now x y z e,
      submitEncryptedData ext sender now x y z s = Except.error e →
      execCall ext s (Call.submitEncryptedData sender now x y z) = s) := by
  constructor
  · have h0 : untouchedAbove (initState deployer) := fun _ _ => rfl
    have hmain := runTrace_count ext b tr (initState deployer) h0
    simpa [initState] using hmain
  · intro s sender now x y z e he
    simp [execCall, runCall, he]

/-- Witness for C4 on the concrete scenario trace, together with a rejected
submission by the non-provider 3 that changes nothing. -/
theorem claim_C4_witness :
    ((runTrace demoExt (initState 0) preTrace).batches 1).totalEncryptedDataPoints =
      countAccepted demoExt 1 (initState 0) preTrace ∧
    execCall demoExt (initState 0) (Call.submitEncryptedData 3 0 5 6 7) = initState 0 :=
  ⟨(claim_C4 demoExt 0 preTrace 1).1,
   (claim_C4 demoExt 0 preTrace 1).2 (initState 0) 3 0 5 6 7 Err.NotProvider (by rfl)⟩

end ImmuneSystemTwinFHE
